import Mathlib

/-!
Shallow embedding of the `md2rt` clipboard Markdown converter.

Sources embedded here:
- `src/md2rt/detector.py` : the Markdown detection heuristic (`is_markdown`
  over the fixed `_PATTERNS` regex table).
- `src/md2rt/converter.py` : the conversion pipeline
  (`markdown_to_html_via_api`, `add_browser_styling_to_html`,
  `markdown_to_styled_html_and_text`).
- `src/md2rt/runner.py` and `src/md2rt/clipboard.py` : the watch loop
  (`run_watcher`'s `on_change` closure and `ClipboardPoller.run`), with the
  pasteboard, the SHA-256 digest and the network renderer treated as external
  collaborators (parameters of the model).

Python regexes are embedded as executable character-list scanners, one per
pattern of `_PATTERNS`, each a deterministic equivalent of the backtracking
search of that particular regex.  Character classes (`\s`, `\w`, `\d`) use
their ASCII meaning; the Unicode extensions of Python's `re` are not modelled
(all inputs appearing in the claims are ASCII).
-/

namespace Md2rt

/-- ASCII whitespace as matched by Python's `\s` and `str.isspace`:
space, tab, newline, carriage return, vertical tab, form feed. -/
def reIsSpace (c : Char) : Bool :=
  c = ' ' || c = '\t' || c = '\n' || c = '\r' || c = '\x0b' || c = '\x0c'

/-- ASCII word character, Python's `\w`: letters, digits, underscore. -/
def isWordChar (c : Char) : Bool :=
  c.isAlphanum || c = '_'

/-!  ## Detector (`src/md2rt/detector.py`)

Each regex of `_PATTERNS` is embedded as a Bool-valued scanner over the
character list of the text.  Multiline `^` anchors are handled by trying the
scanner at the start of the text and after every newline.
-/

/-- The suffixes of `l` that begin just after a `'\n'` — the non-initial
line-start positions of a `(?m)` regex `^` anchor. -/
def lineStartSuffixes : List Char → List (List Char)
  | [] => []
  | c :: cs => if c = '\n' then cs :: lineStartSuffixes cs else lineStartSuffixes cs

/-- All `^`-anchor positions of a multiline regex: the whole text plus every
position following a newline. -/
def lineStarts (l : List Char) : List (List Char) := l :: lineStartSuffixes l

/-- Regex `\s+\S` : at least one whitespace character, then (skipping whitespace)
at least one non-whitespace character. -/
def wsPlusNonWs (l : List Char) : Bool :=
  (l.takeWhile reIsSpace).length ≥ 1 && (l.dropWhile reIsSpace) ≠ []

/-- Regex `^\s{0,3}#{1,6}\s+\S` at one line start: up to three whitespace
characters, one to six `#`, then `\s+\S`. -/
def atxAt (s : List Char) : Bool :=
  let ws := s.takeWhile reIsSpace
  ws.length ≤ 3 &&
    (let r := s.dropWhile reIsSpace
     let hashes := r.takeWhile (fun c => c = '#')
     1 ≤ hashes.length && hashes.length ≤ 6 &&
       wsPlusNonWs (r.drop hashes.length))

/-- Python `re.search` of `(?m)^\s{0,3}#{1,6}\s+\S` (pattern `heading_atx`). -/
def heading_atx_matches (text : String) : Bool :=
  (lineStarts text.data).any atxAt

/-- Regex `\s*$` after a setext underline (multiline `$`): skip whitespace; succeed
at end of input or at a newline. -/
def wsThenEndOrNl : List Char → Bool
  | [] => true
  | c :: cs => if c = '\n' then true else if reIsSpace c then wsThenEndOrNl cs else false

/-- Regex `\s*[-=]{3,}\s*$` : whitespace, then a maximal run of `-`/`=` of length
at least three, then `\s*$`. -/
def dashLineAt (l : List Char) : Bool :=
  let r := l.dropWhile reIsSpace
  let run := r.takeWhile (fun c => c = '-' || c = '=')
  run.length ≥ 3 && wsThenEndOrNl (r.drop run.length)

/-- Search for a `'\n'` followed by a setext underline (`\s*[-=]{3,}\s*$`). -/
def nlDashAfter : List Char → Bool
  | [] => false
  | c :: cs => (c = '\n' && dashLineAt cs) || nlDashAfter cs

/-- Regex `(?ms)^\S.*\n\s*[-=]{3,}\s*$` at one line start: a non-whitespace first
character, then (with DOTALL, `.*` spans lines) any newline after it followed
by an underline line. -/
def setextAt : List Char → Bool
  | [] => false
  | c :: cs => !reIsSpace c && nlDashAfter cs

/-- Python `re.search` of `(?ms)^\S.*\n\s*[-=]{3,}\s*$` (pattern `heading_setext`). -/
def heading_setext_matches (text : String) : Bool :=
  (lineStarts text.data).any setextAt

/-- Regex `^\s{0,3}[-*+]\s+\S` at one line start. -/
def bulletAt (s : List Char) : Bool :=
  let ws := s.takeWhile reIsSpace
  ws.length ≤ 3 &&
    (match s.dropWhile reIsSpace with
     | [] => false
     | c :: rest => (c = '-' || c = '*' || c = '+') && wsPlusNonWs rest)

/-- Python `re.search` of `(?m)^\s{0,3}[-*+]\s+\S` (pattern `list_bulleted`). -/
def list_bulleted_matches (text : String) : Bool :=
  (lineStarts text.data).any bulletAt

/-- Regex `^\s{0,3}\d+\.\s+\S` at one line start: up to three whitespace, a digit
run, a dot, then `\s+\S`. -/
def numberedAt (s : List Char) : Bool :=
  let ws := s.takeWhile reIsSpace
  ws.length ≤ 3 &&
    (let r := s.dropWhile reIsSpace
     let ds := r.takeWhile Char.isDigit
     1 ≤ ds.length &&
       (match r.drop ds.length with
        | '.' :: rest => wsPlusNonWs rest
        | _ => false))

/-- Python `re.search` of `(?m)^\s{0,3}\d+\.\s+\S` (pattern `list_numbered`). -/
def list_numbered_matches (text : String) : Bool :=
  (lineStarts text.data).any numberedAt

/-- Regex `^\s{0,3}>\s+\S` at one line start. -/
def quoteAt (s : List Char) : Bool :=
  let ws := s.takeWhile reIsSpace
  ws.length ≤ 3 &&
    (match s.dropWhile reIsSpace with
     | [] => false
     | c :: rest => c = '>' && wsPlusNonWs rest)

/-- Python `re.search` of `(?m)^\s{0,3}>\s+\S` (pattern `blockquote`). -/
def blockquote_matches (text : String) : Bool :=
  (lineStarts text.data).any quoteAt

/-- Does `"```"` occur anywhere in the list? -/
def containsTicks : List Char → Bool
  | [] => false
  | l@(_ :: cs) => ('`' :: '`' :: '`' :: []).isPrefixOf l || containsTicks cs

/-- After an opening fence: `[\s\S]+?``` ` — at least one character, then a
closing `"```"` somewhere later. -/
def fenceClose : List Char → Bool
  | [] => false
  | _ :: cs => containsTicks cs

/-- Python `re.search` body of `(?s)```[\s\S]+?``` ` (pattern `code_fence`). -/
def codeFenceScan : List Char → Bool
  | [] => false
  | l@(_ :: cs) =>
      (('`' :: '`' :: '`' :: []).isPrefixOf l && fenceClose (l.drop 3)) || codeFenceScan cs

/-- Python `re.search` of `(?s)```[\s\S]+?``` ` (pattern `code_fence`). -/
def code_fence_matches (text : String) : Bool :=
  codeFenceScan text.data

/-- After an opening backtick: `[^`]+` ` — a nonempty run of non-backticks
immediately followed by a backtick. -/
def tickClose (l : List Char) : Bool :=
  let r := l.takeWhile (fun c => c ≠ '`')
  r.length ≥ 1 && l.drop r.length ≠ []

/-- Python `re.search` body of `` `[^`]+` `` (pattern `inline_code`). -/
def inlineCodeScan : List Char → Bool
  | [] => false
  | c :: cs => (c = '`' && tickClose cs) || inlineCodeScan cs

/-- Python `re.search` of `` `[^`]+` `` (pattern `inline_code`). -/
def inline_code_matches (text : String) : Bool :=
  inlineCodeScan text.data

/-- After an opening `'['`: `[^\]]+\]\([^)]+\)` — nonempty run of
non-`']'`, then `]`, `(`, a nonempty run of non-`')'`, then `)`. -/
def linkTail (l : List Char) : Bool :=
  let inner := l.takeWhile (fun c => c ≠ ']')
  inner.length ≥ 1 &&
    (match l.drop inner.length with
     | ']' :: '(' :: rest =>
         let url := rest.takeWhile (fun c => c ≠ ')')
         url.length ≥ 1 && rest.drop url.length ≠ []
     | _ => false)

/-- Python `re.search` body of `\[[^\]]+\]\([^)]+\)` (pattern `link`). -/
def linkScan : List Char → Bool
  | [] => false
  | c :: cs => (c = '[' && linkTail cs) || linkScan cs

/-- Python `re.search` of `\[[^\]]+\]\([^)]+\)` (pattern `link`). -/
def link_matches (text : String) : Bool :=
  linkScan text.data

/-- After `'!'` and `'['`: `[^\]]*\]\([^)]+\)` — possibly empty run of
non-`']'`, then `]`, `(`, a nonempty run of non-`')'`, then `)`. -/
def imageTail (l : List Char) : Bool :=
  let inner := l.takeWhile (fun c => c ≠ ']')
  match l.drop inner.length with
  | ']' :: '(' :: rest =>
      let url := rest.takeWhile (fun c => c ≠ ')')
      url.length ≥ 1 && rest.drop url.length ≠ []
  | _ => false

/-- Python `re.search` body of `!\[[^\]]*\]\([^)]+\)` (pattern `image`). -/
def imageScan : List Char → Bool
  | [] => false
  | c :: cs =>
      (c = '!' && (match cs with
                   | '[' :: rest => imageTail rest
                   | _ => false)) || imageScan cs

/-- Python `re.search` of `!\[[^\]]*\]\([^)]+\)` (pattern `image`). -/
def image_matches (text : String) : Bool :=
  imageScan text.data

/-- Regex `(\W|$)` after the closing emphasis delimiter: end of input, or a
non-word character (the multiline-free `$` also matches before a final
newline, but a newline is itself a non-word character). -/
def wEnd : List Char → Bool
  | [] => true
  | c :: _ => !isWordChar c

/-- Regex `.+?\2(\W|$)` given the captured delimiter `d`: at least one non-newline
body character, then `d` again, then `wEnd`. -/
def emphClose (d : List Char) : List Char → Bool
  | [] => false
  | c :: cs =>
      if c = '\n' then false
      else (d.isPrefixOf cs && wEnd (cs.drop d.length)) || emphClose d cs

/-- The alternatives of the capture `(\*{1,2}|_{1,2})` available at the head
of `l`, in the engine's preference order. -/
def emphDelims (l : List Char) : List (List Char) :=
  (['*', '*'] :: ['*'] :: ['_', '_'] :: ['_'] :: []).filter (fun d => d.isPrefixOf l)

/-- Try the emphasis pattern with the delimiter starting at the head of `l`. -/
def emphAtPos (l : List Char) : Bool :=
  (emphDelims l).any (fun d => emphClose d (l.drop d.length))

/-- Scan for `(^|\W)(\*{1,2}|_{1,2}).+?\2(\W|$)`: `prev` is the character
before the current position (`none` at the start of the text); the group may
start here when `prev` is absent or a non-word character. -/
def emphasisScan (prev : Option Char) : List Char → Bool
  | [] => false
  | c :: cs =>
      ((match prev with
        | none => true
        | some p => !isWordChar p) && emphAtPos (c :: cs)) || emphasisScan (some c) cs

/-- Python `re.search` of `(^|\W)(\*{1,2}|_{1,2}).+?\2(\W|$)` (pattern `emphasis`). -/
def emphasis_matches (text : String) : Bool :=
  emphasisScan none text.data

/-- Regex `.+\|\s*$` after the opening pipe of a table row: at least one
non-newline character, then `|`, then `\s*$`. -/
def tableClose : List Char → Bool
  | [] => false
  | c :: cs =>
      if c = '\n' then false
      else (match cs with
            | '|' :: rest => wsThenEndOrNl rest
            | _ => false) || tableClose cs

/-- Regex `^\s*\|.+\|\s*$` at one line start. -/
def tableAt (s : List Char) : Bool :=
  match s.dropWhile reIsSpace with
  | '|' :: rest => tableClose rest
  | _ => false

/-- Python `re.search` of `(?m)^\s*\|.+\|\s*$` (pattern `table`). -/
def table_matches (text : String) : Bool :=
  (lineStarts text.data).any tableAt

/-- The `_PATTERNS` table of `detector.py`: signal kind names paired with
their pattern tests, in source order. -/
def _PATTERNS : List (String × (String → Bool)) :=
  [("heading_atx", heading_atx_matches),
   ("heading_setext", heading_setext_matches),
   ("list_bulleted", list_bulleted_matches),
   ("list_numbered", list_numbered_matches),
   ("blockquote", blockquote_matches),
   ("code_fence", code_fence_matches),
   ("inline_code", inline_code_matches),
   ("link", link_matches),
   ("image", image_matches),
   ("emphasis", emphasis_matches),
   ("table", table_matches)]

/-- The set of matched kinds, as the (duplicate-free) list of kind names of
`_PATTERNS` whose pattern fires on `text`. -/
def matchedKinds (text : String) : List String :=
  (_PATTERNS.filter (fun kp => kp.2 text)).map (fun kp => kp.1)

/-- The strong signal set of `is_markdown`. -/
def strongKinds : List String :=
  ["code_fence", "link", "heading_atx", "heading_setext", "emphasis",
   "inline_code", "list_bulleted", "list_numbered"]

/-- The guard `if not text or text.isspace()` of `is_markdown`: empty, or
every character whitespace (for the empty string the two agree). -/
def blankText (text : String) : Bool :=
  text.length = 0 || text.data.all reIsSpace

/-- Function `is_markdown` of `detector.py`: blank text is rejected; then the matched
signal kinds are collected; no match rejects; any strong match accepts;
otherwise at least two distinct matched kinds are required. -/
def is_markdown (text : String) : Bool :=
  if blankText text then false
  else
    let mk := matchedKinds text
    if mk.isEmpty then false
    else if mk.any (fun k => strongKinds.contains k) then true
    else mk.length ≥ 2

/-!  ## Converter (`src/md2rt/converter.py`)

The network call of `markdown_to_html_via_api` is an external collaborator;
its observable behaviour is an `ApiOutcome`: either the whole
request/read/decode raised, or it produced a response string.  The base64
decoder of the Python standard library is likewise a parameter
`b64 : String → Option String` (`none` models a raised decoding exception).
The `re.sub` calls of `add_browser_styling_to_html` are embedded as
left-to-right non-overlapping scanners specialised to their patterns;
replacements are emitted verbatim and never rescanned, as in `re.sub`. -/

/-- Python `str.startswith`, computed on character lists so that it reduces
in the kernel. -/
def pyStartsWith (s pre : String) : Bool :=
  pre.data.isPrefixOf s.data

/-- Python `str.strip` (no argument): remove leading and trailing
whitespace. -/
def pyStrip (s : String) : String :=
  ⟨((s.data.dropWhile reIsSpace).reverse.dropWhile reIsSpace).reverse⟩

/-- Observable behaviour of the HTTP request of `markdown_to_html_via_api`:
`fail` models any exception from `urlopen`/`read`/`decode` (timeout, network
error, non-2xx, undecodable body); `respond` carries the decoded body. -/
inductive ApiOutcome where
  | fail
  | respond (response_text : String)

/-- Split at the first occurrence of the (nonempty) literal `pat`:
the characters before it and those after it. -/
def splitAtLit (pat : List Char) : List Char → Option (List Char × List Char)
  | [] => none
  | l@(c :: cs) =>
      if pat.isPrefixOf l then some ([], l.drop pat.length)
      else (splitAtLit pat cs).map (fun p => (c :: p.1, p.2))

/-- Body of the `try` block of `markdown_to_html_via_api`: an `.error` is an
exception escaping the block.  Python's `split(',', 1)[1]` is the text after
the first comma (an `IndexError` — hence an exception — when there is no
comma). -/
def apiTryBody (b64 : String → Option String) (outcome : ApiOutcome) :
    Except Unit String :=
  match outcome with
  | .fail => .error ()
  | .respond rt =>
      if pyStartsWith rt "data:application/octet-stream;base64," then
        match splitAtLit [','] rt.data with
        | some (_, afterComma) =>
            match b64 ⟨afterComma⟩ with
            | some html => .ok (pyStrip html)
            | none => .error ()
        | none => .error ()
      else .ok (pyStrip rt)

/-- Function `markdown_to_html_via_api` of `converter.py`: the `try` body
with the `except` handler producing the paragraph-wrapped fallback. -/
def markdown_to_html_via_api (b64 : String → Option String) (text : String)
    (outcome : ApiOutcome) : String :=
  match apiTryBody b64 outcome with
  | .ok html => html
  | .error _ => "<p>" ++ text ++ "</p>"

/-- Exception-monad rendering of `markdown_to_html_via_api`: the handler
catches every exception of the body and returns normally. -/
def markdown_to_html_via_apiE (b64 : String → Option String) (text : String)
    (outcome : ApiOutcome) : Except Unit String :=
  match apiTryBody b64 outcome with
  | .ok html => .ok html
  | .error _ => .ok ("<p>" ++ text ++ "</p>")

/-- Inline style attached to `h1` elements by `add_browser_styling_to_html`. -/
def h1StyleStr : String :=
  "color: rgb(0, 0, 0); font-family: Times; font-style: normal; font-variant-ligatures: normal; font-variant-caps: normal; letter-spacing: normal; orphans: 2; text-align: start; text-indent: 0px; text-transform: none; widows: 2; word-spacing: 0px; -webkit-text-stroke-width: 0px; white-space: normal; text-decoration-thickness: initial; text-decoration-style: initial; text-decoration-color: initial;"

/-- Inline style attached to `p` elements by `add_browser_styling_to_html`. -/
def pStyleStr : String :=
  "color: rgb(0, 0, 0); font-family: Times; font-size: medium; font-style: normal; font-variant-ligatures: normal; font-variant-caps: normal; font-weight: 400; letter-spacing: normal; orphans: 2; text-align: start; text-indent: 0px; text-transform: none; widows: 2; word-spacing: 0px; -webkit-text-stroke-width: 0px; white-space: normal; text-decoration-thickness: initial; text-decoration-style: initial; text-decoration-color: initial;"

/-- Inline style attached to `pre` blocks by `add_browser_styling_to_html`. -/
def preStyleStr : String :=
  "display: block; color: rgb(0, 0, 0); font-family: Monaco, Menlo, Consolas, monospace; font-size: 13px; background-color: rgb(248, 248, 248); border: 1px solid rgb(231, 231, 231); border-radius: 3px; padding: 16px; margin: 16px 0; overflow-x: auto; white-space: pre;"

/-- Inline style attached to `code` elements by `add_browser_styling_to_html`. -/
def codeStyleStr : String :=
  "font-family: Monaco, Menlo, Consolas, monospace; font-size: 13px; color: rgb(51, 51, 51); background: transparent;"

/-- Split at the first `'>'`: regex `([^>]*)>` — the characters before the
first `'>'` and those after it, or `none` when there is no `'>'`. -/
def splitAtGt : List Char → Option (List Char × List Char)
  | [] => none
  | c :: cs =>
      if c = '>' then some ([], cs)
      else (splitAtGt cs).map (fun p => (c :: p.1, p.2))

/-- Split at the first `'"'`: regex `[^"]*"`. -/
def splitAtQuote : List Char → Option (List Char × List Char)
  | [] => none
  | c :: cs =>
      if c = '"' then some ([], cs)
      else (splitAtQuote cs).map (fun p => (c :: p.1, p.2))

/-- Regex `([^>]*?)style="` after a tag opening: the minimal run of
non-`'>'` characters before a literal `style="`, and the text after that
literal. -/
def findStyleLit : List Char → Option (List Char × List Char)
  | [] => none
  | l@(c :: cs) =>
      if ("style=\"".data).isPrefixOf l then some ([], l.drop 7)
      else if c = '>' then none
      else (findStyleLit cs).map (fun p => (c :: p.1, p.2))

/-- One `re.sub` step for `<TAG([^>]*)>` with replacement
`<TAG\1 style="...">`: at a position where `tag` (e.g. `"<h1"`) is a prefix,
capture the attributes up to the first `'>'` and emit the styled opening. -/
def tagOpenMatcher (tag style : List Char) (l : List Char) :
    Option (List Char × List Char) :=
  if tag.isPrefixOf l then
    match splitAtGt (l.drop tag.length) with
    | some (attrs, rest) =>
        some (tag ++ attrs ++ (" style=\"".data) ++ style ++ ("\">".data), rest)
    | none => none
  else none

/-- One `re.sub` step for `<TAG([^>]*?)style="[^"]*"([^>]*)>` with
replacement `<TAG\1\2>`: strip an existing `style` attribute. -/
def styleRemovalMatcher (tag : List Char) (l : List Char) :
    Option (List Char × List Char) :=
  if tag.isPrefixOf l then
    match findStyleLit (l.drop tag.length) with
    | some (g1, afterLit) =>
        match splitAtQuote afterLit with
        | some (_, afterQuote) =>
            match splitAtGt afterQuote with
            | some (g2, rest) => some (tag ++ g1 ++ g2 ++ ['>'], rest)
            | none => none
        | none => none
    | none => none
  else none

/-- One `re.sub` step for `(?s)<pre([^>]*)>(.*?)</pre>` with replacement
`</ol></ul><pre\1 style="...">\2</pre>`: the lazy body runs to the first
`</pre>`. -/
def preBlockMatcher (style : List Char) (l : List Char) :
    Option (List Char × List Char) :=
  if ("<pre".data).isPrefixOf l then
    match splitAtGt (l.drop 4) with
    | some (attrs, afterGt) =>
        match splitAtLit ("</pre>".data) afterGt with
        | some (body, rest) =>
            some (("</ol></ul><pre".data) ++ attrs ++ (" style=\"".data) ++
                  style ++ ("\">".data) ++ body ++ ("</pre>".data), rest)
        | none => none
    | none => none
  else none

/-- The no-break space (Python `'\xa0'`) inserted around `strong` tags. -/
def nbspStr : String :=
  "\u00A0"

/-- One `re.sub` step for a literal pattern (the `<strong>` spacer
substitutions): emit `repl` and continue after `pat`. -/
def litReplaceMatcher (pat repl : List Char) (l : List Char) :
    Option (List Char × List Char) :=
  if pat ≠ [] && pat.isPrefixOf l then some (repl, l.drop pat.length) else none

/-- Left-to-right non-overlapping substitution, as `re.sub`: at each
position try the matcher; on a match emit the replacement (never rescanned)
and continue after the consumed text; otherwise copy one character.  The
fuel argument is instantiated with the input length; every matcher consumes
at least one character, so the fuel never runs out. -/
def subScanF (f : List Char → Option (List Char × List Char)) :
    Nat → List Char → List Char
  | 0, l => l
  | _ + 1, [] => []
  | fuel + 1, c :: cs =>
      match f (c :: cs) with
      | some (repl, rest) => repl ++ subScanF f fuel rest
      | none => c :: subScanF f fuel cs

/-- Python `re.sub` over a string, with the scanner `f`. -/
def reSub (f : List Char → Option (List Char × List Char)) (s : String) :
    String :=
  ⟨subScanF f s.data.length s.data⟩

/-- Function `add_browser_styling_to_html` of `converter.py`: prepend a meta
charset unless present, style `h1` and `p` openings, strip then reapply
styling on `pre` blocks (closing any open list first) and `code` elements,
and wrap `strong` tags with no-break-space spacer spans. -/
def add_browser_styling_to_html (html : String) : String :=
  let html := if pyStartsWith html "<meta" then html
              else "<meta charset='utf-8'>" ++ html
  let html := reSub (tagOpenMatcher ("<h1".data) h1StyleStr.data) html
  let html := reSub (tagOpenMatcher ("<p".data) pStyleStr.data) html
  let html := reSub (styleRemovalMatcher ("<pre".data)) html
  let html := reSub (preBlockMatcher preStyleStr.data) html
  let html := reSub (styleRemovalMatcher ("<code".data)) html
  let html := reSub (tagOpenMatcher ("<code".data) codeStyleStr.data) html
  let html := reSub (litReplaceMatcher ("<strong>".data) (("<span>" ++ nbspStr ++ "</span><strong>").data)) html
  let html := reSub (litReplaceMatcher ("</strong>".data) (("</strong><span>" ++ nbspStr ++ "</span>").data)) html
  html

/-- Function `markdown_to_styled_html_and_text` of `converter.py`:
the conversion pipeline, returning the styled HTML and the original text. -/
def markdown_to_styled_html_and_text (b64 : String → Option String)
    (text : String) (outcome : ApiOutcome) : String × String :=
  let html := markdown_to_html_via_api b64 text outcome
  let styled_html := add_browser_styling_to_html html
  (styled_html, text)

/-- Exception-monad rendering of the pipeline: exceptions of the renderer
call would propagate through this composition if not caught inside
`markdown_to_html_via_api`. -/
def markdown_to_styled_html_and_textE (b64 : String → Option String)
    (text : String) (outcome : ApiOutcome) : Except Unit (String × String) := do
  let html ← markdown_to_html_via_apiE b64 text outcome
  let styled_html := add_browser_styling_to_html html
  return (styled_html, text)

/-!  ## Watch loop (`src/md2rt/runner.py` and `src/md2rt/clipboard.py`)

The macOS pasteboard is modelled as a `Clip`: its OS change counter and its
plain-text and HTML flavors.  The SHA-256 digest of `_hash_text` is an
external collaborator, a parameter `hashF`; no property of it is assumed.
The conversion pipeline appears as a parameter
`convert : String → Except Unit (String × String)` so that the defensive
`except` branch of `on_change` (a pipeline-level exception) is expressible;
`markdown_to_styled_html_and_text` instantiates it on the `.ok` side.
Watcher activity is recorded as a list of `Effect`s per tick. -/

/-- The pasteboard: the OS change counter plus the stored flavors. -/
structure Clip where
  changeCount : Nat
  text : Option String
  html : Option String
deriving DecidableEq

/-- Function `read_plain_text_from_pasteboard` of `clipboard.py`: the plain
text flavor, with the empty string normalised to `none`. -/
def read_plain_text_from_pasteboard (c : Clip) : Option String :=
  match c.text with
  | none => none
  | some t => if t = "" then none else some t

/-- Function `add_styled_html_to_pasteboard_preserving_original` of
`clipboard.py`: clear the pasteboard and set the HTML flavor to the styled
HTML and the plain-text flavor to the original Markdown; the write bumps the
OS change counter. -/
def add_styled_html_to_pasteboard_preserving_original (c : Clip)
    (styled_html original_markdown : String) : Clip :=
  { changeCount := c.changeCount + 1,
    text := some original_markdown,
    html := some styled_html }

/-- The single mutable slot of `run_watcher`: the `last_processed_hash`
closure variable (the spec's ProcessedMarker), `none` at startup. -/
structure WatcherState where
  last_processed_hash : Option String
deriving DecidableEq

/-- Observable actions of one `on_change` invocation: an `is_markdown` call,
a pipeline call, a pasteboard write. -/
inductive Effect where
  | detect (text : String)
  | convertCall (text : String)
  | writeClipboard (styled_html original_text : String)
deriving DecidableEq

/-- Body of `run_watcher.on_change` after the pasteboard read (`text?` is
the value the read produced): dedupe against `last_processed_hash`, run the
detector, run the pipeline, and (except in dry-run) write back; a pipeline
exception leaves the marker untouched. -/
def on_change_core (hashF : String → String)
    (convert : String → Except Unit (String × String)) (dry_run : Bool)
    (st : WatcherState) (clip : Clip) (text? : Option String) :
    WatcherState × Clip × List Effect :=
  match text? with
  | none => (st, clip, [])
  | some text =>
      if text = "" then (st, clip, [])
      else
        let current_hash := hashF text
        if st.last_processed_hash = some current_hash then (st, clip, [])
        else if !is_markdown text then
          (⟨some current_hash⟩, clip, [.detect text])
        else
          match convert text with
          | .error _ => (st, clip, [.detect text, .convertCall text])
          | .ok (styled_html, _plain_text) =>
              if dry_run then
                (⟨some (hashF text)⟩, clip, [.detect text, .convertCall text])
              else
                (⟨some (hashF text)⟩,
                 add_styled_html_to_pasteboard_preserving_original clip
                   styled_html text,
                 [.detect text, .convertCall text,
                  .writeClipboard styled_html text])

/-- Function `run_watcher.on_change` of `runner.py`: read the pasteboard,
then the body above. -/
def on_change (hashF : String → String)
    (convert : String → Except Unit (String × String)) (dry_run : Bool)
    (st : WatcherState) (clip : Clip) : WatcherState × Clip × List Effect :=
  on_change_core hashF convert dry_run st clip
    (read_plain_text_from_pasteboard clip)

/-- Exception-aware `on_change`: `readRes` is the outcome of the pasteboard
read, which may itself raise; `on_change` installs no handler around the
read, so such an exception propagates. -/
def on_changeE (hashF : String → String)
    (convert : String → Except Unit (String × String)) (dry_run : Bool)
    (readRes : Except Unit (Option String)) (st : WatcherState)
    (clip : Clip) : Except Unit (WatcherState × Clip × List Effect) :=
  readRes.map (on_change_core hashF convert dry_run st clip)

/-- The mutable fields of `ClipboardPoller`: `_last_change_count` and
`_stopped`. -/
structure PollerState where
  lastChangeCount : Nat
  stopped : Bool
deriving DecidableEq

/-- One iteration of the `while` body of `ClipboardPoller.run`: when the
observed change counter differs from `_last_change_count`, record it and run
`on_change`. -/
def watchTick (hashF : String → String)
    (convert : String → Except Unit (String × String)) (dry_run : Bool)
    (ps : PollerState) (ws : WatcherState) (clip : Clip) :
    PollerState × WatcherState × Clip × List Effect :=
  if ps.stopped then (ps, ws, clip, [])
  else if clip.changeCount ≠ ps.lastChangeCount then
    let r := on_change hashF convert dry_run ws clip
    ({ ps with lastChangeCount := clip.changeCount }, r.1, r.2.1, r.2.2)
  else (ps, ws, clip, [])

/-- Function `ClipboardPoller.run` of `clipboard.py` over a script of poll
ticks.  Each tick observes the pasteboard `clip` and whether the read inside
`on_change` raises at that tick.  The loop body has no `try`/`except`, so an
exception from `on_change` propagates out of `run` and ends the loop. -/
def pollerRunE (hashF : String → String)
    (convert : String → Except Unit (String × String)) (dry_run : Bool) :
    List (Clip × Bool) → PollerState → WatcherState →
    Except Unit (PollerState × WatcherState × List Effect)
  | [], ps, ws => .ok (ps, ws, [])
  | (clip, readRaises) :: rest, ps, ws =>
      if ps.stopped then .ok (ps, ws, [])
      else if clip.changeCount ≠ ps.lastChangeCount then
        let ps' := { ps with lastChangeCount := clip.changeCount }
        match on_changeE hashF convert dry_run
            (if readRaises then .error ()
             else .ok (read_plain_text_from_pasteboard clip)) ws clip with
        | .error e => .error e
        | .ok (ws', _clip', effs) =>
            match pollerRunE hashF convert dry_run rest ps' ws' with
            | .error e => .error e
            | .ok (psf, wsf, effs') => .ok (psf, wsf, effs ++ effs')
      else pollerRunE hashF convert dry_run rest ps ws

/-!  ## Derived signal combinations used by the claims -/

/-- Disjunction of the eight strong signals, in the order of `strongKinds`. -/
def strongSignal (text : String) : Bool :=
  code_fence_matches text || link_matches text || heading_atx_matches text ||
  heading_setext_matches text || emphasis_matches text || inline_code_matches text ||
  list_bulleted_matches text || list_numbered_matches text

/-- Number of distinct weak signal kinds (blockquote, image, table) firing. -/
def weakSignalCount (text : String) : Nat :=
  (if blockquote_matches text then 1 else 0) +
  (if image_matches text then 1 else 0) +
  (if table_matches text then 1 else 0)

/-!  ## Theorems -/

theorem matchedKinds_applied (text : String) :
    matchedKinds text
      = ((_PATTERNS.map (fun kp => (kp.1, kp.2 text))).filter
          (fun kp => kp.2)).map (fun kp => kp.1) := by
  unfold matchedKinds
  induction _PATTERNS with
  | nil => rfl
  | cons a as ih =>
      cases h : a.2 text <;> simp [List.filter_cons, h, ih]

set_option maxHeartbeats 1000000 in
theorem decisionRule_eq :
    ∀ (bb b1 b2 b3 b4 b5 b6 b7 b8 b9 b10 b11 : Bool),
    (if bb then false
     else
       let mk := (List.filter (fun kp => kp.2)
         [("heading_atx", b1), ("heading_setext", b2), ("list_bulleted", b3),
          ("list_numbered", b4), ("blockquote", b5), ("code_fence", b6),
          ("inline_code", b7), ("link", b8), ("image", b9), ("emphasis", b10),
          ("table", b11)]).map (fun kp => kp.1)
       if mk.isEmpty then false
       else if mk.any (fun k => strongKinds.contains k) then true
       else mk.length ≥ 2)
    = (!bb && ((b6 || b8 || b1 || b2 || b10 || b7 || b3 || b4) ||
               decide (2 ≤ ((if b5 then 1 else 0) + (if b9 then 1 else 0) +
                            (if b11 then 1 else 0))))) := by
  decide

/-- C3: `is_markdown` implements the stated decision procedure — it rejects
blank text, and otherwise returns true exactly when a strong signal
(code fence, link, either heading style, emphasis, inline code, either list
style) fires, or at least two distinct weak signal kinds (blockquote, image,
table) fire; zero signals or a lone weak signal yield false. -/
theorem C3_detector_decision_rule (text : String) :
    is_markdown text =
      (!blankText text &&
       (strongSignal text || decide (2 ≤ weakSignalCount text))) := by
  unfold is_markdown
  rw [matchedKinds_applied text]
  exact decisionRule_eq (blankText text) (heading_atx_matches text)
    (heading_setext_matches text) (list_bulleted_matches text)
    (list_numbered_matches text) (blockquote_matches text)
    (code_fence_matches text) (inline_code_matches text) (link_matches text)
    (image_matches text) (emphasis_matches text) (table_matches text)

/-- C1: the conversion pipeline returns the input string itself, byte for
byte, as the second component, for every input, every renderer outcome
(success or failure) and every base64-decoder behaviour. -/
theorem C1_pipeline_preserves_original (b64 : String → Option String)
    (text : String) (outcome : ApiOutcome) :
    (markdown_to_styled_html_and_text b64 text outcome).2 = text := rfl

/-- C2: the conversion pipeline never lets a renderer failure escape: in the
exception-monad rendering, every input, renderer outcome (including timeout,
network error, non-2xx and decode errors, all modelled by `.fail` or a
failing `b64`) and decoder behaviour produce a normal `.ok` return, equal to
the value of the total pipeline. -/
theorem C2_pipeline_never_raises (b64 : String → Option String)
    (text : String) (outcome : ApiOutcome) :
    markdown_to_styled_html_and_textE b64 text outcome
      = Except.ok (markdown_to_styled_html_and_text b64 text outcome) := by
  unfold markdown_to_styled_html_and_textE markdown_to_html_via_apiE
    markdown_to_styled_html_and_text markdown_to_html_via_api
  cases apiTryBody b64 outcome <;> rfl

/-- C4: presenting the same clipboard text to the watch loop twice in a row
— the first bump converts and writes back, and any further bump (in
particular the one produced by the loop's own write, whose plain-text flavor
is the original text) with the same text — yields exactly one conversion and
one clipboard write: the second tick produces no effects at all. -/
theorem C4_same_text_converted_once (hashF : String → String)
    (convert : String → Except Unit (String × String))
    (t styled plain : String) (cc0 cc cc2 : Nat) (ws : WatcherState)
    (html0 html2 : Option String)
    (ht : t ≠ "") (hmd : is_markdown t = true)
    (hconv : convert t = .ok (styled, plain))
    (hnew : ws.last_processed_hash ≠ some (hashF t))
    (hcc : cc ≠ cc0) (hcc2 : cc2 ≠ cc) :
    watchTick hashF convert false ⟨cc0, false⟩ ws ⟨cc, some t, html0⟩
      = (⟨cc, false⟩, ⟨some (hashF t)⟩, ⟨cc + 1, some t, some styled⟩,
         [.detect t, .convertCall t, .writeClipboard styled t])
    ∧ watchTick hashF convert false ⟨cc, false⟩ ⟨some (hashF t)⟩
        ⟨cc2, some t, html2⟩
      = (⟨cc2, false⟩, ⟨some (hashF t)⟩, ⟨cc2, some t, html2⟩, []) := by
  constructor <;>
    simp [watchTick, on_change, on_change_core, read_plain_text_from_pasteboard,
          add_styled_html_to_pasteboard_preserving_original, ht, hmd, hconv,
          hnew, hcc, hcc2]

/-- Closed instance of C4 at a concrete Markdown text, with the second bump
being the loop's own write. -/
theorem C4_same_text_converted_once_witness :
    watchTick id (fun s => Except.ok ("<h1>T</h1>", s)) false ⟨0, false⟩
        ⟨none⟩ ⟨1, some "# Title", none⟩
      = (⟨1, false⟩, ⟨some "# Title"⟩, ⟨2, some "# Title", some "<h1>T</h1>"⟩,
         [.detect "# Title", .convertCall "# Title",
          .writeClipboard "<h1>T</h1>" "# Title"])
    ∧ watchTick id (fun s => Except.ok ("<h1>T</h1>", s)) false ⟨1, false⟩
        ⟨some "# Title"⟩ ⟨2, some "# Title", some "<h1>T</h1>"⟩
      = (⟨2, false⟩, ⟨some "# Title"⟩, ⟨2, some "# Title", some "<h1>T</h1>"⟩,
         []) :=
  C4_same_text_converted_once id (fun s => Except.ok ("<h1>T</h1>", s))
    "# Title" "<h1>T</h1>" "# Title" 0 1 2 ⟨none⟩ none (some "<h1>T</h1>")
    (by decide) (by decide) rfl (by decide) (by decide) (by decide)

/-- C5: when the conversion pipeline raises, the watch loop leaves the
ProcessedMarker (`last_processed_hash`) unchanged and writes nothing, so a
later bump with the identical text runs the detector and the pipeline
again. -/
theorem C5_failed_conversion_leaves_marker (hashF : String → String)
    (convert : String → Except Unit (String × String)) (dry : Bool)
    (t : String) (cc0 cc cc2 : Nat) (ws : WatcherState)
    (html0 html2 : Option String)
    (ht : t ≠ "") (hmd : is_markdown t = true)
    (hconv : convert t = .error ())
    (hnew : ws.last_processed_hash ≠ some (hashF t))
    (hcc : cc ≠ cc0) (hcc2 : cc2 ≠ cc) :
    watchTick hashF convert dry ⟨cc0, false⟩ ws ⟨cc, some t, html0⟩
      = (⟨cc, false⟩, ws, ⟨cc, some t, html0⟩, [.detect t, .convertCall t])
    ∧ watchTick hashF convert dry ⟨cc, false⟩ ws ⟨cc2, some t, html2⟩
      = (⟨cc2, false⟩, ws, ⟨cc2, some t, html2⟩,
         [.detect t, .convertCall t]) := by
  constructor <;>
    simp [watchTick, on_change, on_change_core, read_plain_text_from_pasteboard,
          ht, hmd, hconv, hnew, hcc, hcc2]

/-- Closed instance of C5: a raising pipeline leaves the marker `none` and
the identical text is attempted again on the next bump. -/
theorem C5_failed_conversion_leaves_marker_witness :
    watchTick id (fun _ => Except.error ()) false ⟨0, false⟩ ⟨none⟩
        ⟨1, some "# Title", none⟩
      = (⟨1, false⟩, ⟨none⟩, ⟨1, some "# Title", none⟩,
         [.detect "# Title", .convertCall "# Title"])
    ∧ watchTick id (fun _ => Except.error ()) false ⟨1, false⟩ ⟨none⟩
        ⟨2, some "# Title", none⟩
      = (⟨2, false⟩, ⟨none⟩, ⟨2, some "# Title", none⟩,
         [.detect "# Title", .convertCall "# Title"]) :=
  C5_failed_conversion_leaves_marker id (fun _ => Except.error ()) false
    "# Title" 0 1 2 ⟨none⟩ none none
    (by decide) (by decide) rfl (by decide) (by decide) (by decide)

/-- C6: a fresh non-Markdown clipboard text makes the loop record its hash
as the ProcessedMarker and leave the pasteboard untouched: the returned clip
is the one that was read and no write effect occurs. -/
theorem C6_non_markdown_marks_without_write (hashF : String → String)
    (convert : String → Except Unit (String × String)) (dry : Bool)
    (t : String) (cc0 cc : Nat) (ws : WatcherState) (html0 : Option String)
    (ht : t ≠ "") (hmd : is_markdown t = false)
    (hnew : ws.last_processed_hash ≠ some (hashF t))
    (hcc : cc ≠ cc0) :
    watchTick hashF convert dry ⟨cc0, false⟩ ws ⟨cc, some t, html0⟩
      = (⟨cc, false⟩, ⟨some (hashF t)⟩, ⟨cc, some t, html0⟩, [.detect t]) := by
  simp [watchTick, on_change, on_change_core, read_plain_text_from_pasteboard,
        ht, hmd, hnew, hcc]

/-- Closed instance of C6 at the spec's scenario-2 sentence. -/
theorem C6_non_markdown_marks_without_write_witness :
    watchTick id (fun s => Except.ok ("", s)) false ⟨0, false⟩ ⟨none⟩
        ⟨1, some "This is a sentence without any markdown notation or lists.",
         none⟩
      = (⟨1, false⟩,
         ⟨some "This is a sentence without any markdown notation or lists."⟩,
         ⟨1, some "This is a sentence without any markdown notation or lists.",
          none⟩,
         [.detect
            "This is a sentence without any markdown notation or lists."]) :=
  C6_non_markdown_marks_without_write id (fun s => Except.ok ("", s)) false
    "This is a sentence without any markdown notation or lists." 0 1 ⟨none⟩
    none (by decide) (by decide) (by decide) (by decide)

/-- C9: in dry-run mode a successful conversion advances the ProcessedMarker
without any pasteboard write, and a later bump with the identical text is
neither re-detected nor re-converted (no effects at all). -/
theorem C9_dry_run_advances_marker (hashF : String → String)
    (convert : String → Except Unit (String × String))
    (t styled plain : String) (cc0 cc cc2 : Nat) (ws : WatcherState)
    (html0 html2 : Option String)
    (ht : t ≠ "") (hmd : is_markdown t = true)
    (hconv : convert t = .ok (styled, plain))
    (hnew : ws.last_processed_hash ≠ some (hashF t))
    (hcc : cc ≠ cc0) (hcc2 : cc2 ≠ cc) :
    watchTick hashF convert true ⟨cc0, false⟩ ws ⟨cc, some t, html0⟩
      = (⟨cc, false⟩, ⟨some (hashF t)⟩, ⟨cc, some t, html0⟩,
         [.detect t, .convertCall t])
    ∧ watchTick hashF convert true ⟨cc, false⟩ ⟨some (hashF t)⟩
        ⟨cc2, some t, html2⟩
      = (⟨cc2, false⟩, ⟨some (hashF t)⟩, ⟨cc2, some t, html2⟩, []) := by
  constructor <;>
    simp [watchTick, on_change, on_change_core, read_plain_text_from_pasteboard,
          ht, hmd, hconv, hnew, hcc, hcc2]

/-- Closed instance of C9. -/
theorem C9_dry_run_advances_marker_witness :
    watchTick id (fun s => Except.ok ("<h1>T</h1>", s)) true ⟨0, false⟩
        ⟨none⟩ ⟨1, some "# Title", none⟩
      = (⟨1, false⟩, ⟨some "# Title"⟩, ⟨1, some "# Title", none⟩,
         [.detect "# Title", .convertCall "# Title"])
    ∧ watchTick id (fun s => Except.ok ("<h1>T</h1>", s)) true ⟨1, false⟩
        ⟨some "# Title"⟩ ⟨2, some "# Title", none⟩
      = (⟨2, false⟩, ⟨some "# Title"⟩, ⟨2, some "# Title", none⟩, []) :=
  C9_dry_run_advances_marker id (fun s => Except.ok ("<h1>T</h1>", s))
    "# Title" "<h1>T</h1>" "# Title" 0 1 2 ⟨none⟩ none none
    (by decide) (by decide) rfl (by decide) (by decide) (by decide)

/-- C7 counterexample: an exception raised by the pasteboard read inside
`on_change` at the first processed tick makes `ClipboardPoller.run` (which
has no `try`/`except` around the loop body) return exceptionally: the run
terminates instead of continuing to the second tick, whose Markdown payload
is never processed. -/
theorem C7_counterexample_exception_kills_watcher :
    pollerRunE id (fun s => Except.ok ("<h1>T</h1>", s)) false
      [(⟨1, some "# Title", none⟩, true), (⟨2, some "# Title", none⟩, false)]
      ⟨0, false⟩ ⟨none⟩ = .error () := rfl

/-- C7 amended: an unexpected exception while processing one clipboard
payload (here: a raising pasteboard read, which `run_watcher.on_change`
does not guard) propagates out of `ClipboardPoller.run` and terminates the
watch loop — no later tick of the script is processed. -/
theorem C7_amended_exception_terminates_loop (hashF : String → String)
    (convert : String → Except Unit (String × String)) (dry : Bool)
    (script : List (Clip × Bool)) (clip : Clip) (ps : PollerState)
    (ws : WatcherState)
    (hstop : ps.stopped = false)
    (hcc : clip.changeCount ≠ ps.lastChangeCount) :
    pollerRunE hashF convert dry ((clip, true) :: script) ps ws
      = .error () := by
  simp [pollerRunE, on_changeE, hstop, hcc, Except.map]

/-- Closed instance of the amended C7. -/
theorem C7_amended_exception_terminates_loop_witness :
    pollerRunE id (fun s => Except.ok ("<h1>T</h1>", s)) false
      [(⟨5, some "text", none⟩, true), (⟨6, some "# Later", none⟩, false)]
      ⟨4, false⟩ ⟨none⟩ = .error () :=
  C7_amended_exception_terminates_loop id
    (fun s => Except.ok ("<h1>T</h1>", s)) false
    [(⟨6, some "# Later", none⟩, false)] ⟨5, some "text", none⟩ ⟨4, false⟩
    ⟨none⟩ rfl (by decide)

set_option maxRecDepth 100000 in
/-- C8 counterexample: for input `"# X"` with a failing renderer call, the
pipeline does not return the bare fallback `"<p># X</p>"` as its HTML — the
styling pass has altered it. -/
theorem C8_counterexample_pipeline_html_is_styled :
    (markdown_to_styled_html_and_text (fun _ => none) "# X" .fail).1
      ≠ "<p># X</p>" := by
  decide

set_option maxRecDepth 100000 in
/-- C8 amended: when the renderer call fails for `"# X"`, the renderer stage
produces the fallback `"<p># X</p>"`; the pipeline returns that fallback
with browser styling applied — a meta-charset prefix and an inline style
attribute on the paragraph tag — together with the unchanged original text,
and (in the exception-monad rendering) no exception propagates. -/
theorem C8_amended_fallback_styled :
    markdown_to_html_via_api (fun _ => none) "# X" .fail = "<p># X</p>"
    ∧ markdown_to_styled_html_and_text (fun _ => none) "# X" .fail
      = ("<meta charset='utf-8'><p style=\"" ++ pStyleStr ++ "\"># X</p>",
         "# X")
    ∧ markdown_to_styled_html_and_textE (fun _ => none) "# X" .fail
      = .ok ("<meta charset='utf-8'><p style=\"" ++ pStyleStr ++ "\"># X</p>",
             "# X") := by
  exact ⟨rfl, by decide, rfl⟩


def safeLinkChar (c : Char) : Bool :=
  c.isAlpha || c = ':' || c = '/' || c = '.'

theorem takeWhile_append_all {p : Char → Bool} {xs ys : List Char}
    (h : xs.all p = true) : (xs ++ ys).takeWhile p = xs ++ ys.takeWhile p := by
  induction xs with
  | nil => simp
  | cons a as ih =>
      simp only [List.all_cons, Bool.and_eq_true] at h
      simp [List.takeWhile_cons, h.1, ih h.2]

theorem lineStartSuffixes_nil {l : List Char}
    (h : l.all (fun c => c ≠ '\n') = true) : lineStartSuffixes l = [] := by
  induction l with
  | nil => rfl
  | cons a as ih =>
      simp only [List.all_cons, Bool.and_eq_true] at h
      have ha : a ≠ '\n' := by simpa using h.1
      simp [lineStartSuffixes, ha, ih h.2]

theorem nlDashAfter_false {l : List Char}
    (h : l.all (fun c => c ≠ '\n') = true) : nlDashAfter l = false := by
  induction l with
  | nil => rfl
  | cons a as ih =>
      simp only [List.all_cons, Bool.and_eq_true] at h
      have ha : a ≠ '\n' := by simpa using h.1
      simp [nlDashAfter, ha, ih h.2]

theorem codeFenceScan_false {l : List Char}
    (h : l.all (fun c => c ≠ '`') = true) : codeFenceScan l = false := by
  induction l with
  | nil => rfl
  | cons a as ih =>
      simp only [List.all_cons, Bool.and_eq_true] at h
      have ha : a ≠ '`' := by simpa using h.1
      simp [codeFenceScan, List.isPrefixOf, Ne.symm ha, ih h.2]

theorem inlineCodeScan_false {l : List Char}
    (h : l.all (fun c => c ≠ '`') = true) : inlineCodeScan l = false := by
  induction l with
  | nil => rfl
  | cons a as ih =>
      simp only [List.all_cons, Bool.and_eq_true] at h
      have ha : a ≠ '`' := by simpa using h.1
      simp [inlineCodeScan, ha, ih h.2]

theorem linkScan_false {l : List Char}
    (h : l.all (fun c => c ≠ '[') = true) : linkScan l = false := by
  induction l with
  | nil => rfl
  | cons a as ih =>
      simp only [List.all_cons, Bool.and_eq_true] at h
      have ha : a ≠ '[' := by simpa using h.1
      simp [linkScan, ha, ih h.2]

theorem emphasisScan_false {l : List Char}
    (h : l.all (fun c => c ≠ '*' && c ≠ '_') = true) :
    ∀ prev, emphasisScan prev l = false := by
  induction l with
  | nil => intro prev; rfl
  | cons a as ih =>
      intro prev
      simp only [List.all_cons, Bool.and_eq_true] at h
      have ha1 : a ≠ '*' := by simpa using h.1.1
      have ha2 : a ≠ '_' := by simpa using h.1.2
      have hd : emphDelims (a :: as) = [] := by
        simp [emphDelims, List.isPrefixOf, Ne.symm ha1, Ne.symm ha2]
      simp [emphasisScan, emphAtPos, hd, ih h.2 (some a)]

theorem all_of_all {p q : Char → Bool} {l : List Char}
    (h : l.all p = true) (himp : ∀ c, p c = true → q c = true) :
    l.all q = true := by
  simp only [List.all_eq_true] at h ⊢
  exact fun c hc => himp c (h c hc)

theorem alpha_ne {c x : Char} (h : c.isAlpha = true)
    (hx : x.isAlpha = false) : c ≠ x := by
  intro he; subst he; rw [h] at hx; cases hx

theorem safe_ne {c x : Char} (h : safeLinkChar c = true)
    (hx : safeLinkChar x = false) : c ≠ x := by
  intro he; subst he; rw [h] at hx; cases hx

theorem is_markdown_true_of_link (text : String)
    (hb : blankText text = false) (hl : link_matches text = true) :
    is_markdown text = true := by
  have hmem : "link" ∈ matchedKinds text := by
    simp only [matchedKinds, List.mem_map, List.mem_filter]
    exact ⟨("link", link_matches), by simp [_PATTERNS, hl], rfl⟩
  have hne : (matchedKinds text).isEmpty = false := by
    cases hmk : matchedKinds text with
    | nil => rw [hmk] at hmem; cases hmem
    | cons a as => rfl
  have hany : (matchedKinds text).any (fun k => strongKinds.contains k) = true :=
    List.any_eq_true.mpr ⟨"link", hmem, by simp [strongKinds]⟩
  simp only [is_markdown, hb, Bool.false_eq_true, if_false, hne, hany, if_true]

theorem linkTail_of_shape (alt url : List Char)
    (halt : alt.all (fun c => c ≠ ']') = true) (hne : alt ≠ [])
    (hurl : url.all (fun c => c ≠ ')') = true) (hu : url ≠ []) :
    linkTail (alt ++ (']' :: '(' :: (url ++ [')']))) = true := by
  have hinner : (alt ++ (']' :: '(' :: (url ++ [')']))).takeWhile
      (fun c => c ≠ ']') = alt := by
    rw [takeWhile_append_all halt]; simp
  have hdrop : (alt ++ (']' :: '(' :: (url ++ [')']))).drop alt.length
      = ']' :: '(' :: (url ++ [')']) := List.drop_left _ _
  have hurl1 : (url ++ [')']).takeWhile (fun c => c ≠ ')') = url := by
    rw [takeWhile_append_all hurl]; simp
  have hdrop2 : (url ++ [')']).drop url.length = [')'] := List.drop_left _ _
  simp only [linkTail, hinner, hdrop, hurl1, hdrop2]
  simp only [ne_eq, List.cons_ne_self]
  simp
  exact ⟨List.length_pos.mpr hne, List.length_pos.mpr hu⟩

theorem imageTail_of_shape (alt url : List Char)
    (halt : alt.all (fun c => c ≠ ']') = true)
    (hurl : url.all (fun c => c ≠ ')') = true) (hu : url ≠ []) :
    imageTail (alt ++ (']' :: '(' :: (url ++ [')']))) = true := by
  have hinner : (alt ++ (']' :: '(' :: (url ++ [')']))).takeWhile
      (fun c => c ≠ ']') = alt := by
    rw [takeWhile_append_all halt]; simp
  have hdrop : (alt ++ (']' :: '(' :: (url ++ [')']))).drop alt.length
      = ']' :: '(' :: (url ++ [')']) := List.drop_left _ _
  have hurl1 : (url ++ [')']).takeWhile (fun c => c ≠ ')') = url := by
    rw [takeWhile_append_all hurl]; simp
  have hdrop2 : (url ++ [')']).drop url.length = [')'] := List.drop_left _ _
  simp only [imageTail]
  rw [hinner, hdrop]
  simp only [hurl1, hdrop2]
  simp
  exact List.length_pos.mpr hu

theorem linkTail_empty_alt (r : List Char) :
    linkTail (']' :: r) = false := by
  simp [linkTail, List.takeWhile_cons]

theorem blankText_false {text : String} {r : List Char}
    (h : text.data = '!' :: r) : blankText text = false := by
  simp [blankText, String.length, h, reIsSpace]

theorem data_shape_alt (alt url : String) :
    ("![" ++ alt ++ "](" ++ url ++ ")").data
      = '!' :: '[' :: (alt.data ++ (']' :: '(' :: (url.data ++ [')']))) := by
  have e1 : "![".data = ['!', '['] := rfl
  have e2 : "](".data = [']', '('] := rfl
  have e3 : ")".data = [')'] := rfl
  simp [String.data_append, e1, e2, e3]

theorem data_shape_noalt (url : String) :
    ("![](" ++ url ++ ")").data
      = '!' :: '[' :: ']' :: '(' :: (url.data ++ [')']) := by
  have e1 : "![](".data = ['!', '[', ']', '('] := rfl
  have e3 : ")".data = [')'] := rfl
  simp [String.data_append, e1, e3]

/-- C10: for a text that is exactly one image reference over benign
characters, a non-empty alt text makes the strong `link` pattern fire inside
the image (so `is_markdown` is true), while an empty alt text leaves only
the weak `image` signal (so `is_markdown` is false). -/
theorem C10_image_alt_decides (alt url : String)
    (halt : alt.data.all Char.isAlpha = true) (hne : alt ≠ "")
    (hurl : url.data.all safeLinkChar = true) (hu : url ≠ "") :
    is_markdown ("![" ++ alt ++ "](" ++ url ++ ")") = true
    ∧ is_markdown ("![](" ++ url ++ ")") = false := by
  have hne' : alt.data ≠ [] := by
    intro h; exact hne (String.ext_iff.mpr (by simp [h]))
  have hu' : url.data ≠ [] := by
    intro h; exact hu (String.ext_iff.mpr (by simp [h]))
  have haltR : alt.data.all (fun c => c ≠ ']') = true :=
    all_of_all halt (fun c hc => decide_eq_true (alpha_ne hc (by decide)))
  have hurlP : url.data.all (fun c => c ≠ ')') = true :=
    all_of_all hurl (fun c hc => decide_eq_true (safe_ne hc (by decide)))
  constructor
  · -- nonempty alt: the link pattern fires inside the image
    have hdata := data_shape_alt alt url
    have hblank : blankText ("![" ++ alt ++ "](" ++ url ++ ")") = false :=
      blankText_false hdata
    have hlt : linkTail (alt.data ++ (']' :: '(' :: (url.data ++ [')'])))
        = true := linkTail_of_shape _ _ haltR hne' hurlP hu'
    have hlink : link_matches ("![" ++ alt ++ "](" ++ url ++ ")") = true := by
      unfold link_matches
      rw [hdata]
      simp [linkScan, hlt]
    exact is_markdown_true_of_link _ hblank hlink
  · -- empty alt: only the weak image pattern fires
    have hdata := data_shape_noalt url
    have hblank : blankText ("![](" ++ url ++ ")") = false :=
      blankText_false hdata
    -- character facts about the whole payload
    have hu_nl : url.data.all (fun c => c ≠ '\n') = true :=
      all_of_all hurl (fun c hc => decide_eq_true (safe_ne hc (by decide)))
    have hu_tick : url.data.all (fun c => c ≠ '`') = true :=
      all_of_all hurl (fun c hc => decide_eq_true (safe_ne hc (by decide)))
    have hu_br : url.data.all (fun c => c ≠ '[') = true :=
      all_of_all hurl (fun c hc => decide_eq_true (safe_ne hc (by decide)))
    have hu_em : url.data.all (fun c => c ≠ '*' && c ≠ '_') = true :=
      all_of_all hurl (fun c hc => by
        have h1 := safe_ne hc (show safeLinkChar '*' = false by decide)
        have h2 := safe_ne hc (show safeLinkChar '_' = false by decide)
        simp [h1, h2])
    have hall_nl : (('!' :: '[' :: ']' :: '(' :: (url.data ++ [')'])).all
        (fun c => c ≠ '\n')) = true := by
      simp [List.all_append]
      simpa using hu_nl
    have htail_nl : (('[' :: ']' :: '(' :: (url.data ++ [')'])).all
        (fun c => c ≠ '\n')) = true := by
      simp [List.all_append]
      simpa using hu_nl
    have hall_tick : (('!' :: '[' :: ']' :: '(' :: (url.data ++ [')'])).all
        (fun c => c ≠ '`')) = true := by
      simp [List.all_append]
      simpa using hu_tick
    have htail_br : ((']' :: '(' :: (url.data ++ [')'])).all
        (fun c => c ≠ '[')) = true := by
      simp [List.all_append]
      simpa using hu_br
    have hall_em : (('!' :: '[' :: ']' :: '(' :: (url.data ++ [')'])).all
        (fun c => c ≠ '*' && c ≠ '_')) = true := by
      simp [List.all_append]
      simpa using hu_em
    -- line starts: just the whole text
    have hls : lineStarts ('!' :: '[' :: ']' :: '(' :: (url.data ++ [')']))
        = [('!' :: '[' :: ']' :: '(' :: (url.data ++ [')']))] := by
      simp [lineStarts, lineStartSuffixes_nil hall_nl]
    -- the eleven pattern values
    have h1 : heading_atx_matches ("![](" ++ url ++ ")") = false := by
      unfold heading_atx_matches
      rw [hdata, hls]
      simp [atxAt, List.takeWhile_cons, reIsSpace]
    have h2 : heading_setext_matches ("![](" ++ url ++ ")") = false := by
      unfold heading_setext_matches
      rw [hdata, hls]
      simp [setextAt, reIsSpace, nlDashAfter_false htail_nl]
    have h3 : list_bulleted_matches ("![](" ++ url ++ ")") = false := by
      unfold list_bulleted_matches
      rw [hdata, hls]
      simp [bulletAt, List.takeWhile_cons, List.dropWhile_cons, reIsSpace]
    have h4 : list_numbered_matches ("![](" ++ url ++ ")") = false := by
      unfold list_numbered_matches
      rw [hdata, hls]
      simp [numberedAt, List.takeWhile_cons, List.dropWhile_cons, reIsSpace]
    have h5 : blockquote_matches ("![](" ++ url ++ ")") = false := by
      unfold blockquote_matches
      rw [hdata, hls]
      simp [quoteAt, List.takeWhile_cons, List.dropWhile_cons, reIsSpace]
    have h6 : code_fence_matches ("![](" ++ url ++ ")") = false := by
      unfold code_fence_matches
      rw [hdata]
      exact codeFenceScan_false hall_tick
    have h7 : inline_code_matches ("![](" ++ url ++ ")") = false := by
      unfold inline_code_matches
      rw [hdata]
      exact inlineCodeScan_false hall_tick
    have h8 : link_matches ("![](" ++ url ++ ")") = false := by
      unfold link_matches
      rw [hdata]
      simp [linkScan, linkTail_empty_alt]
      exact linkScan_false (by simp [List.all_append]; simpa using hu_br)
    have h9 : image_matches ("![](" ++ url ++ ")") = true := by
      unfold image_matches
      rw [hdata]
      have := imageTail_of_shape [] url.data (by simp) hurlP hu'
      simp only [List.nil_append] at this
      simp [imageScan, this]
    have h10 : emphasis_matches ("![](" ++ url ++ ")") = false := by
      unfold emphasis_matches
      rw [hdata]
      exact emphasisScan_false hall_em none
    have h11 : table_matches ("![](" ++ url ++ ")") = false := by
      unfold table_matches
      rw [hdata, hls]
      simp [tableAt, List.dropWhile_cons, reIsSpace]
    have hmk : matchedKinds ("![](" ++ url ++ ")") = ["image"] := by
      simp [matchedKinds, _PATTERNS, List.filter_cons,
            h1, h2, h3, h4, h5, h6, h7, h8, h9, h10, h11]
    simp [is_markdown, hblank, hmk, strongKinds]

/-- Closed instance of C10 at alt `"alt"` and url `"https://x.co/a.png"`. -/
theorem C10_image_alt_decides_witness :
    is_markdown ("![" ++ "alt" ++ "](" ++ "https://x.co/a.png" ++ ")") = true
    ∧ is_markdown ("![](" ++ "https://x.co/a.png" ++ ")") = false :=
  C10_image_alt_decides "alt" "https://x.co/a.png" (by decide) (by decide)
    (by decide) (by decide)


end Md2rt
